import Mathlib

/-!
Verification of the AutoAttend facial-recognition attendance engine.

The definitions below are a shallow embedding of the attendance engine found
in src/src/pages/AttendanceCapture.tsx and of the student registration flow
found in the StudentRegistration component. Days are modelled as natural
numbers (the code filters records by the current calendar day); the database
is a list of attendance rows; React component state is passed explicitly.

A central modelling point, visible in AttendanceCapture.tsx lines 242 to 306:
the callback installed by window.setInterval closes over the value of the
recognizedStudents array from the render in which startFaceRecognition ran.
Calls to setRecognizedStudents replace the React state with a new array but
never mutate the captured one, so every invocation of the callback tests
membership against the same snapshot. The embedding therefore threads two
recognized lists: the snapshot captured by the closure (used by the guard on
line 287) and the live component state (updated functionally on line 288).
-/

namespace AutoAttend

/-- A row of the students table as used by AttendanceCapture (id is the uuid
primary key used as the matcher label, line 219). -/
structure Student where
  id : String
  name : String
  deriving DecidableEq, Repr

/-- A row of the attendance table: student_id, course, status (present or
absent) and the day on which created_at falls. -/
structure AttendanceRow where
  student_id : String
  course : String
  status : String
  day : Nat
  deriving DecidableEq, Repr

/-- The supabase query in fetchAttendanceRecords (lines 106 to 112): all
attendance rows of the selected course whose created_at falls on today. -/
def fetchRecords (db : List AttendanceRow) (courseName : String) (today : Nat) :
    List AttendanceRow :=
  db.filter (fun r => r.course == courseName && r.day == today)

/-- fetchAttendanceRecords (lines 101 to 128): returns the fetched records and
the recognizedStudents state derived from them, namely the student_id of every
fetched row whose status is present (lines 121 to 124). -/
def fetchAttendanceRecords (db : List AttendanceRow) (courseName : String)
    (today : Nat) : List AttendanceRow × List String :=
  let records := fetchRecords db courseName today
  (records, (records.filter (fun r => r.status == "present")).map (·.student_id))

/-- The recognizedStudents state as set by fetchAttendanceRecords. -/
def recognizedOf (db : List AttendanceRow) (courseName : String) (today : Nat) :
    List String :=
  (fetchAttendanceRecords db courseName today).2

/-- Whether the database holds a present record for the student in the course
today. -/
def hasPresentToday (db : List AttendanceRow) (courseName : String) (today : Nat)
    (sid : String) : Bool :=
  db.any (fun r =>
    r.student_id == sid && r.course == courseName && r.day == today &&
      r.status == "present")

/-- The mutable state the recognition loop acts on: the recognizedStudents
React state and the attendance table. -/
structure CaptureState where
  recognizedStudents : List String
  attendance : List AttendanceRow
  deriving DecidableEq, Repr

/-- Processing of one matched detection (lines 287 to 303): if the label is not
the unknown sentinel and is not contained in closureRecognized, the snapshot of
recognizedStudents captured when the interval callback was created, then the
label is appended to the live recognizedStudents state (the functional update
on line 288) and a present row is inserted (lines 292 to 296). The trailing
fetchAttendanceRecords call on line 299 refreshes the React state but never
the captured snapshot, so it cannot affect the guard; it is omitted here. -/
def processDetection (closureRecognized : List String) (course : String)
    (today : Nat) (label : String) (st : CaptureState) : CaptureState :=
  if label != "unknown" && !(closureRecognized.contains label) then
    { recognizedStudents := st.recognizedStudents ++ [label],
      attendance := st.attendance ++ [⟨label, course, "present", today⟩] }
  else
    st

/-- One invocation of the setInterval callback (lines 242 to 306), restricted
to its effect on state: the for loop over the detected faces processes each
matched label in order. -/
def recognitionTick (closureRecognized : List String) (course : String)
    (today : Nat) (detections : List String) (st : CaptureState) : CaptureState :=
  detections.foldl
    (fun s l => processDetection closureRecognized course today l s) st

/-- A run of consecutive sampling ticks of one session: the closure snapshot is
fixed for the whole run because the callback is created once (line 242). -/
def runTicks (closureRecognized : List String) (course : String) (today : Nat)
    (ticks : List (List String)) (st : CaptureState) : CaptureState :=
  ticks.foldl
    (fun s dets => recognitionTick closureRecognized course today dets s) st

/-- The observable result of markAbsentStudents: the new attendance table and
the success and error messages shown to the operator. -/
structure MarkResult where
  db : List AttendanceRow
  successMessage : Option String
  error : Option String
  deriving DecidableEq, Repr

/-- markAbsentStudents (lines 317 to 357): computes the roster members whose id
is not contained in the current recognizedStudents state (lines 324 to 326); if
none, sets a success message and inserts nothing (lines 328 to 332); otherwise
inserts one absent row per absentee (lines 334 to 343). -/
def markAbsentStudents (students : List Student)
    (recognizedStudents : List String) (course : String) (today : Nat)
    (db : List AttendanceRow) : MarkResult :=
  let absentStudentIds :=
    (students.filter (fun s => !(recognizedStudents.contains s.id))).map (·.id)
  if absentStudentIds.isEmpty then
    { db := db, successMessage := some "All students are present!",
      error := none }
  else
    { db := db ++ absentStudentIds.map
        (fun sid => ⟨sid, course, "absent", today⟩),
      successMessage := some "Attendance has been completed successfully!",
      error := none }

/-- The absent rows inserted by markAbsentStudents (lines 334 to 343): one row
per roster member whose id is not contained in recognizedStudents, in roster
order. -/
def newAbsentRows (students : List Student) (recognizedStudents : List String)
    (course : String) (today : Nat) : List AttendanceRow :=
  ((students.filter (fun s => !(recognizedStudents.contains s.id))).map (·.id)).map
    (fun sid => ⟨sid, course, "absent", today⟩)

/-- Outcome of fetching one roster member photo and running the detector on it
(lines 202 to 227): either a descriptor was computed, or detectSingleFace found
no face (lines 213 to 216), or fetching and processing the image threw (lines
222 to 225). -/
inductive PhotoResult where
  | ok (descriptor : List ℚ)
  | noFace
  | loadError
  deriving DecidableEq, Repr

/-- Whether the photo produced a usable descriptor. -/
def PhotoResult.isOk : PhotoResult → Bool
  | .ok _ => true
  | .noFace => false
  | .loadError => false

/-- The per-student body of the Promise.all in startFaceRecognition (lines 203
to 226): a labeled descriptor with the student id as label on success, null on
any failure. -/
def labeledDescriptorFor (photo : Student → PhotoResult) (s : Student) :
    Option (String × List ℚ) :=
  match photo s with
  | .ok d => some (s.id, d)
  | .noFace => none
  | .loadError => none

/-- The validDescriptors list (line 230): the per-student results with the null
entries filtered out. -/
def buildLabeledDescriptors (photo : Student → PhotoResult)
    (students : List Student) : List (String × List ℚ) :=
  students.filterMap (labeledDescriptorFor photo)

/-- The component state startFaceRecognition and startWebcam act on: webcam
flag, capturing flag, the surfaced error message, whether the sampling
interval has been installed (line 242) and the gallery held by the installed
face matcher (line 239). -/
structure CaptureUIState where
  isWebcamActive : Bool
  isCapturing : Bool
  error : Option String
  intervalSet : Bool
  gallery : List (String × List ℚ)
  deriving DecidableEq, Repr

/-- startWebcam (lines 151 to 174): clears the error, then either activates the
webcam or, when getUserMedia fails, surfaces the camera error message and
leaves isWebcamActive untouched. -/
def startWebcam (cameraAvailable : Bool) (st : CaptureUIState) : CaptureUIState :=
  let st1 := { st with error := none }
  if cameraAvailable then
    { st1 with isWebcamActive := true }
  else
    let msg := "Failed to access webcam. Please check your camera permissions."
    { st1 with error := some msg }

/-- startFaceRecognition (lines 193 to 242), up to installing the interval: the
guard on line 194 returns silently when the webcam is inactive or the roster is
empty (the video and canvas refs are always attached in the rendered
component); otherwise isCapturing is set and the error cleared (lines 198 to
199), the labeled descriptors are built, and if every entry was filtered out an
error is surfaced and isCapturing is reset (lines 232 to 236); otherwise the
matcher is created over the valid descriptors and the interval installed. -/
def startFaceRecognition (photo : Student → PhotoResult)
    (students : List Student) (st : CaptureUIState) : CaptureUIState :=
  if !st.isWebcamActive || students.isEmpty then
    st
  else
    let st1 := { st with isCapturing := true, error := none }
    let validDescriptors := buildLabeledDescriptors photo students
    if validDescriptors.isEmpty then
      let msg := "Could not create face descriptors from student photos. Please check the photos."
      { st1 with error := some msg, isCapturing := false }
    else
      { st1 with gallery := validDescriptors, intervalSet := true }

/-- Modelled from the spec: section 4.3 Matcher. The repository delegates
matching to the external face-api.js FaceMatcher (constructed on line 239 with
distance threshold 0.6 and queried through findBestMatch on line 273), whose
implementation is not part of src/. Following the spec: compute the distance
from the live embedding to every reference embedding in the gallery, select the
minimum (first entry in gallery iteration order on ties), and return that
identity when the minimum distance is at most the threshold, else the unknown
sentinel, together with the minimum distance. The distance function is a
parameter (Euclidean over the embedding space in the reference model). -/
def findBestMatch {α : Type} (dist : α → α → ℚ) (threshold : ℚ)
    (gallery : List (String × α)) (liveEmbedding : α) : String × ℚ :=
  match gallery with
  | [] => ("unknown", 0)
  | g :: gs =>
    let best := gs.foldl
      (fun b p =>
        if dist liveEmbedding p.2 < b.2 then (p.1, dist liveEmbedding p.2) else b)
      (g.1, dist liveEmbedding g.2)
    if best.2 ≤ threshold then best else ("unknown", best.2)

/-- Events of the sampling loop: a timer fire of the setInterval callback
(line 242), carrying whether the video reports a ready frame (the guard on
line 248 checks paused, ended and videoWidth), and the completion of one
invocation of the asynchronous callback body. -/
inductive TickEvent where
  | fire (videoReady : Bool)
  | finish
  deriving DecidableEq, Repr

/-- Effect of one event on the number of callback invocations currently in
flight: the callback body has no guard on previous in-flight processing, so a
fire with a ready video always begins another detection pass; a fire with the
video not ready returns at line 249; a finish ends one pass. -/
def inFlightStep (n : Nat) : TickEvent → Nat
  | .fire ready => if ready then n + 1 else n
  | .finish => n - 1

/-- Number of callback invocations in flight after a list of events. -/
def inFlightAfter (events : List TickEvent) : Nat :=
  events.foldl inFlightStep 0

/-- Validity of a suffix of events starting with n invocations in flight: a
finish may only occur while some invocation is in flight; a fire may occur at
any time, because window.setInterval keeps firing on schedule regardless of
the state of earlier asynchronous invocations. -/
def validFrom (n : Nat) : List TickEvent → Bool
  | [] => true
  | .fire r :: rest => validFrom (inFlightStep n (.fire r)) rest
  | .finish :: rest => decide (0 < n) && validFrom (n - 1) rest

/-- Validity of an event trace of one session, starting idle. -/
def validTrace (events : List TickEvent) : Bool :=
  validFrom 0 events

/-- A row of the students table as inserted by the registration flow (lines
211 to 219 of the StudentRegistration component). -/
structure EnrollRow where
  name : String
  student_id : String
  course : String
  photo_url : String
  descriptor : List ℚ
  deriving DecidableEq, Repr

/-- Environment of one handleSubmit run: the generated file name, whether the
storage upload succeeds, the result of computeFaceDescriptor on the uploaded
photo (none when no face is detected or the image cannot be processed, in
which case computeFaceDescriptor throws), and whether the database insert
succeeds. -/
structure EnrollEnv where
  fileName : String
  uploadOk : Bool
  descriptor : Option (List ℚ)
  insertOk : Bool

/-- How a handleSubmit run terminates: normally, or by an uncaught
ReferenceError thrown while the catch block evaluates a name that is not in
scope. -/
inductive JsOutcome where
  | ok
  | thrownReferenceError (name : String)
  deriving DecidableEq, Repr

/-- Observable result of handleSubmit: the photo storage contents, the students
table, the surfaced messages and how the run terminated. -/
structure EnrollResult where
  storage : List String
  studentsDb : List EnrollRow
  error : Option String
  successMessage : Option String
  outcome : JsOutcome
  deriving DecidableEq, Repr

/-- handleSubmit of the StudentRegistration component (lines 168 to 241),
after the field and model checks have passed. The constant filePath is
declared inside the try block (line 189), so it is not in scope in the catch
block: the cleanup on lines 232 to 237, which reads filePath to remove the
uploaded photo, instead raises a ReferenceError when the transpiled code runs
(and is rejected outright by the TypeScript checker). Every path through the
catch block is therefore modelled as setting the error message (line 230,
which precedes the read of filePath) and then terminating with a thrown
ReferenceError on the name filePath, with no storage removal performed. On
the success path the student row is inserted with the public URL derived from
filePath (lines 200 to 219). -/
def handleSubmit (env : EnrollEnv) (name studentId course : String)
    (storage : List String) (studentsDb : List EnrollRow) : EnrollResult :=
  let filePath := "students/" ++ env.fileName
  if !env.uploadOk then
    { storage := storage, studentsDb := studentsDb,
      error := some "Failed to register student: upload failed",
      successMessage := none,
      outcome := .thrownReferenceError "filePath" }
  else
    let storage1 := storage ++ [filePath]
    match env.descriptor with
    | none =>
      { storage := storage1, studentsDb := studentsDb,
        error := some "Failed to register student: No face detected in the image",
        successMessage := none,
        outcome := .thrownReferenceError "filePath" }
    | some d =>
      if env.insertOk then
        { storage := storage1,
          studentsDb := studentsDb ++
            [⟨name, studentId, course, "public/" ++ filePath, d⟩],
          error := none,
          successMessage := some "Student registered successfully!",
          outcome := .ok }
      else
        { storage := storage1, studentsDb := studentsDb,
          error := some "Failed to register student: insert failed",
          successMessage := none,
          outcome := .thrownReferenceError "filePath" }

/-! Helper lemmas. -/

lemma contains_iff_mem {l : List String} {a : String} :
    l.contains a = true ↔ a ∈ l := by
  simp [List.contains]

lemma mem_recognizedOf {db : List AttendanceRow} {c : String} {d : Nat}
    {sid : String} :
    sid ∈ recognizedOf db c d ↔ hasPresentToday db c d sid = true := by
  simp only [recognizedOf, fetchAttendanceRecords, fetchRecords, hasPresentToday,
    List.mem_map, List.mem_filter, List.any_eq_true, Bool.and_eq_true, beq_iff_eq]
  constructor
  · rintro ⟨r, ⟨⟨hr, hc, hd⟩, hp⟩, hsid⟩
    exact ⟨r, hr, ⟨⟨hsid, hc⟩, hd⟩, hp⟩
  · rintro ⟨r, hr, ⟨⟨hsid, hc⟩, hd⟩, hp⟩
    exact ⟨r, ⟨⟨hr, hc, hd⟩, hp⟩, hsid⟩

lemma markAbsentStudents_db (students : List Student) (recognized : List String)
    (course : String) (today : Nat) (db : List AttendanceRow) :
    (markAbsentStudents students recognized course today db).db
      = db ++ newAbsentRows students recognized course today := by
  simp only [markAbsentStudents, newAbsentRows]
  split
  · next h =>
    rw [List.isEmpty_iff] at h
    show db = db ++ _
    rw [h]
    simp
  · rfl

lemma markAbsentStudents_error (students : List Student)
    (recognized : List String) (course : String) (today : Nat)
    (db : List AttendanceRow) :
    (markAbsentStudents students recognized course today db).error = none := by
  simp only [markAbsentStudents]
  split <;> rfl

lemma countP_filter_id (recognized : List String) (sid : String)
    (students : List Student) (hnd : (students.map Student.id).Nodup) :
    (students.filter (fun s => !(recognized.contains s.id))).countP
        (fun s => s.id == sid)
      = if sid ∈ students.map Student.id ∧ sid ∉ recognized then 1 else 0 := by
  induction students with
  | nil => simp
  | cons s t ih =>
    simp only [List.map_cons, List.nodup_cons] at hnd
    obtain ⟨hhead, htail⟩ := hnd
    by_cases hc : s.id ∈ recognized
    · rw [List.filter_cons_of_neg (by simp [contains_iff_mem, hc])]
      rw [ih htail]
      by_cases hsid : sid = s.id
      · subst hsid
        simp [hc]
      · simp [List.mem_cons, hsid]
    · rw [List.filter_cons_of_pos (by simp [contains_iff_mem, hc])]
      by_cases hsid : sid = s.id
      · subst hsid
        rw [List.countP_cons_of_pos _ _ (by simp)]
        rw [ih htail]
        simp [hhead, hc]
      · rw [List.countP_cons_of_neg _ _ (by simp [Ne.symm hsid])]
        rw [ih htail]
        simp [List.mem_cons, hsid]

lemma recognizedOf_append_absent (db extra : List AttendanceRow) (c : String)
    (d : Nat) (h : ∀ r ∈ extra, r.status = "absent") :
    recognizedOf (db ++ extra) c d = recognizedOf db c d := by
  simp only [recognizedOf, fetchAttendanceRecords, fetchRecords,
    List.filter_append, List.map_append]
  have hnil : ((extra.filter (fun r => r.course == c && r.day == d)).filter
      (fun r => r.status == "present")) = [] := by
    rw [List.filter_eq_nil_iff]
    intro r hr
    have hre : r ∈ extra := (List.mem_filter.mp hr).1
    simp [h r hre]
  rw [hnil]
  simp

lemma newAbsentRows_eq_nil_iff (students : List Student)
    (recognized : List String) (course : String) (today : Nat) :
    newAbsentRows students recognized course today = [] ↔
      ∀ s ∈ students, s.id ∈ recognized := by
  simp [newAbsentRows, List.filter_eq_nil_iff, contains_iff_mem]

lemma status_newAbsentRows (students : List Student) (recognized : List String)
    (course : String) (today : Nat) :
    ∀ r ∈ newAbsentRows students recognized course today, r.status = "absent" := by
  intro r hr
  simp only [newAbsentRows, List.mem_map] at hr
  obtain ⟨sid, _, rfl⟩ := hr
  rfl

lemma bestFold_le_init {α : Type} (dist : α → α → ℚ) (live : α) :
    ∀ (gs : List (String × α)) (init : String × ℚ),
      (gs.foldl
          (fun b p => if dist live p.2 < b.2 then (p.1, dist live p.2) else b)
          init).2 ≤ init.2
  | [], _ => le_refl _
  | q :: qs, init => by
    rw [List.foldl_cons]
    refine le_trans (bestFold_le_init dist live qs _) ?_
    by_cases hq : dist live q.2 < init.2
    · simp only [if_pos hq]
      exact le_of_lt hq
    · simp only [if_neg hq]
      exact le_refl _

lemma bestFold_mem {α : Type} (dist : α → α → ℚ) (live : α) :
    ∀ (gs : List (String × α)) (init : String × ℚ),
      gs.foldl (fun b p => if dist live p.2 < b.2 then (p.1, dist live p.2) else b)
          init = init ∨
        ∃ p ∈ gs,
          gs.foldl
              (fun b p => if dist live p.2 < b.2 then (p.1, dist live p.2) else b)
              init = (p.1, dist live p.2)
  | [], _ => Or.inl rfl
  | q :: qs, init => by
    rw [List.foldl_cons]
    rcases bestFold_mem dist live qs
        (if dist live q.2 < init.2 then (q.1, dist live q.2) else init) with
      h | ⟨p, hp, h⟩
    · by_cases hq : dist live q.2 < init.2
      · right
        exact ⟨q, List.mem_cons_self q qs, by rw [h, if_pos hq]⟩
      · left
        rw [h, if_neg hq]
    · right
      exact ⟨p, List.mem_cons_of_mem q hp, h⟩

lemma bestFold_min {α : Type} (dist : α → α → ℚ) (live : α) :
    ∀ (gs : List (String × α)) (init : String × ℚ) (p : String × α), p ∈ gs →
      (gs.foldl
          (fun b p => if dist live p.2 < b.2 then (p.1, dist live p.2) else b)
          init).2 ≤ dist live p.2
  | q :: qs, init, p, hp => by
    rw [List.foldl_cons]
    rcases List.mem_cons.mp hp with h | h
    · subst h
      refine le_trans (bestFold_le_init dist live qs _) ?_
      by_cases hq : dist live p.2 < init.2
      · simp only [if_pos hq]
        exact le_refl _
      · simp only [if_neg hq]
        exact le_of_not_lt hq
    · exact bestFold_min dist live qs _ p h

lemma mem_buildLabeledDescriptors (photo : Student → PhotoResult)
    (students : List Student) (p : String × List ℚ) :
    p ∈ buildLabeledDescriptors photo students ↔
      ∃ s ∈ students, photo s = PhotoResult.ok p.2 ∧ p.1 = s.id := by
  simp only [buildLabeledDescriptors, List.mem_filterMap]
  constructor
  · rintro ⟨s, hs, hf⟩
    cases hps : photo s with
    | ok d =>
      rw [labeledDescriptorFor, hps] at hf
      obtain ⟨rfl⟩ : (s.id, d) = p := Option.some.inj hf
      exact ⟨s, hs, by rw [hps], rfl⟩
    | noFace => rw [labeledDescriptorFor, hps] at hf; exact absurd hf (by simp)
    | loadError => rw [labeledDescriptorFor, hps] at hf; exact absurd hf (by simp)
  · rintro ⟨s, hs, hok, hid⟩
    refine ⟨s, hs, ?_⟩
    rw [labeledDescriptorFor, hok]
    obtain ⟨p1, p2⟩ := p
    simp only at hid
    rw [hid]

lemma length_buildLabeledDescriptors (photo : Student → PhotoResult)
    (students : List Student) :
    (buildLabeledDescriptors photo students).length
      = students.countP (fun s => (photo s).isOk) := by
  rw [buildLabeledDescriptors, List.length_filterMap_eq_countP]
  apply List.countP_congr
  intro s _
  cases hps : photo s <;> simp [labeledDescriptorFor, hps, PhotoResult.isOk]

lemma buildLabeledDescriptors_isEmpty_iff (photo : Student → PhotoResult)
    (students : List Student) :
    (buildLabeledDescriptors photo students).isEmpty = true ↔
      ∀ s ∈ students, (photo s).isOk = false := by
  rw [List.isEmpty_iff_length_eq_zero, length_buildLabeledDescriptors,
    List.countP_eq_zero]
  simp

lemma validFrom_append_fire (r : Bool) :
    ∀ (events : List TickEvent) (n : Nat),
      validFrom n (events ++ [TickEvent.fire r]) = validFrom n events
  | [], n => by simp [validFrom]
  | TickEvent.fire r' :: rest, n => by
    simp only [List.cons_append, validFrom]
    exact validFrom_append_fire r rest _
  | TickEvent.finish :: rest, n => by
    simp only [List.cons_append, validFrom]
    exact congrArg (fun b => decide (0 < n) && b) (validFrom_append_fire r rest (n - 1))

/-! Claim theorems. -/

/-- C1: the claim states that recording a student present any number of times
in one day leaves exactly one present record, the insert being guarded by a
check that no present record exists for (student, course, today). Evaluating
the embedded code at the failing input refutes this: the guard on line 287
tests membership in the recognizedStudents array captured when the interval
callback was created, which no setRecognizedStudents call ever updates, so
processing the same matched student twice in one session (here twice within
one tick, the same happens across ticks) inserts two present rows for the same
(student, course, day). -/
theorem recordPresent_duplicate_on_repeat :
    (recognitionTick [] "CS101" 0 ["s1", "s1"] ⟨[], []⟩).attendance.countP
        (fun r => r.student_id == "s1" && r.course == "CS101" &&
          r.status == "present" && r.day == 0) = 2 ∧
    (recognitionTick [] "CS101" 0 ["s1", "s1"] ⟨[], []⟩).attendance.length = 2 := by
  decide

/-- C4: the claim states that N consecutive ticks matching the same identity
emit exactly one recognition event, later detections being discarded because
the identity is already in the recognized set. Evaluating the embedded code at
the failing input refutes this: the closure snapshot consulted by the guard is
fixed at interval creation, so two consecutive ticks each detecting the same
face both pass the guard, emit an event (append to recognizedStudents) and
attempt a present insert. -/
theorem recognitionLoop_duplicate_events :
    (runTicks [] "CS101" 0 [["s1"], ["s1"]] ⟨[], []⟩).attendance.length = 2 ∧
    (runTicks [] "CS101" 0 [["s1"], ["s1"]] ⟨[], []⟩).recognizedStudents
      = ["s1", "s1"] := by
  decide

/-- C10: whenever a course is selected or the records are refreshed,
fetchAttendanceRecords initialises recognizedStudents to exactly the students
holding a present record for that course today; consequently a detection of a
student already present from an earlier session, matched against a closure
snapshot taken from that refreshed state, inserts nothing: deduplication is
day-scoped across sessions. -/
theorem recognized_set_day_scoped (db : List AttendanceRow) (course : String)
    (today : Nat) (sid : String) (st : CaptureState) :
    (sid ∈ recognizedOf db course today ↔
      hasPresentToday db course today sid = true) ∧
    (hasPresentToday db course today sid = true →
      processDetection (recognizedOf db course today) course today sid st = st) := by
  refine ⟨mem_recognizedOf, fun h => ?_⟩
  have hmem : sid ∈ recognizedOf db course today := mem_recognizedOf.mpr h
  simp [processDetection, hmem]

/-- Witness for C10 at a concrete database holding a present record. -/
theorem recognized_set_day_scoped_witness :
    processDetection (recognizedOf [⟨"a", "CS101", "present", 0⟩] "CS101" 0)
        "CS101" 0 "a" ⟨[], []⟩ = ⟨[], []⟩ :=
  (recognized_set_day_scoped [⟨"a", "CS101", "present", 0⟩] "CS101" 0 "a"
    ⟨[], []⟩).2 (by decide)

/-- C3: markAbsentStudents, given a recognizedStudents state as produced by
fetchAttendanceRecords (the states derivation from the database of present
records today), appends exactly one absent row for each roster member with no
present record today, appends no row at all for a student holding a present
record, reports no error, and when every roster member is present inserts
nothing and sets the all-present success message. -/
theorem markAbsentStudents_correct (students : List Student)
    (recognized : List String) (course : String) (today : Nat)
    (db : List AttendanceRow)
    (hrec : recognized = recognizedOf db course today)
    (hnd : (students.map Student.id).Nodup) :
    (markAbsentStudents students recognized course today db).db
        = db ++ newAbsentRows students recognized course today ∧
    (∀ s ∈ students, hasPresentToday db course today s.id = false →
      (newAbsentRows students recognized course today).countP
        (fun r => r.student_id == s.id && r.status == "absent") = 1) ∧
    (∀ sid : String, hasPresentToday db course today sid = true →
      (newAbsentRows students recognized course today).countP
        (fun r => r.student_id == sid) = 0) ∧
    (markAbsentStudents students recognized course today db).error = none ∧
    ((∀ s ∈ students, hasPresentToday db course today s.id = true) →
      (markAbsentStudents students recognized course today db).db = db ∧
      (markAbsentStudents students recognized course today db).successMessage
        = some "All students are present!") := by
  have hmem : ∀ sid : String, sid ∈ recognized ↔
      hasPresentToday db course today sid = true := by
    intro sid
    rw [hrec]
    exact mem_recognizedOf
  refine ⟨markAbsentStudents_db _ _ _ _ _, ?_, ?_, markAbsentStudents_error _ _ _ _ _, ?_⟩
  · intro s hs hnp
    have hnotrec : s.id ∉ recognized := by
      intro hmem2
      rw [hmem s.id] at hmem2
      rw [hmem2] at hnp
      exact absurd hnp (by decide)
    have hcount : (newAbsentRows students recognized course today).countP
        (fun r => r.student_id == s.id && r.status == "absent")
        = (students.filter (fun s2 => !(recognized.contains s2.id))).countP
            (fun t => t.id == s.id) := by
      simp only [newAbsentRows, List.countP_map]
      apply List.countP_congr
      intro t _
      simp [Function.comp]
    rw [hcount, countP_filter_id _ _ _ hnd,
      if_pos ⟨List.mem_map_of_mem Student.id hs, hnotrec⟩]
  · intro sid hp
    have hcount : (newAbsentRows students recognized course today).countP
        (fun r => r.student_id == sid)
        = (students.filter (fun s2 => !(recognized.contains s2.id))).countP
            (fun t => t.id == sid) := by
      simp only [newAbsentRows, List.countP_map]
      apply List.countP_congr
      intro t _
      simp [Function.comp]
    have hneg : ¬(sid ∈ students.map Student.id ∧ sid ∉ recognized) := by
      intro hcontra
      exact hcontra.2 ((hmem sid).mpr hp)
    rw [hcount, countP_filter_id _ _ _ hnd, if_neg hneg]
  · intro hall
    have hempty : newAbsentRows students recognized course today = [] := by
      rw [newAbsentRows_eq_nil_iff]
      intro s hs
      exact (hmem s.id).mpr (hall s hs)
    have hdb := markAbsentStudents_db students recognized course today db
    rw [hempty, List.append_nil] at hdb
    refine ⟨hdb, ?_⟩
    have hcond : ∀ a ∈ students, a.id ∈ recognized :=
      fun a ha => (hmem a.id).mpr (hall a ha)
    simp only [markAbsentStudents]
    rw [if_pos ?hc]
    case hc =>
      simp only [List.isEmpty_iff, List.map_eq_nil_iff, List.filter_eq_nil_iff]
      intro a ha
      simp [hcond a ha]

/-- Witness for C3: a two-student roster with one present record, recognized
state derived by fetchAttendanceRecords from the database. -/
theorem markAbsentStudents_correct_witness :
    (markAbsentStudents [⟨"a", "Alice"⟩, ⟨"b", "Bob"⟩]
        (recognizedOf [⟨"a", "CS101", "present", 0⟩] "CS101" 0) "CS101" 0
        [⟨"a", "CS101", "present", 0⟩]).db
      = [⟨"a", "CS101", "present", 0⟩]
          ++ newAbsentRows [⟨"a", "Alice"⟩, ⟨"b", "Bob"⟩]
              (recognizedOf [⟨"a", "CS101", "present", 0⟩] "CS101" 0) "CS101" 0 :=
  (markAbsentStudents_correct [⟨"a", "Alice"⟩, ⟨"b", "Bob"⟩] _ "CS101" 0
    [⟨"a", "CS101", "present", 0⟩] rfl (by decide)).1

/-- C2: the matcher computes the distance from the live embedding to every
reference embedding of a non-empty gallery, its result distance is the minimum
of these and is attained, it returns the identity of a minimizing reference
whenever the minimum distance is at most the threshold (including the boundary
case of equality, exercised by the witness), and returns the unknown sentinel
whenever the minimum distance exceeds the threshold. The matcher is modelled
from the spec because its implementation lives in the external face-api.js
dependency. -/
theorem findBestMatch_matches_spec {α : Type} (dist : α → α → ℚ) (threshold : ℚ)
    (gallery : List (String × α)) (liveEmbedding : α) (hg : gallery ≠ []) :
    (∃ p ∈ gallery, (findBestMatch dist threshold gallery liveEmbedding).2
        = dist liveEmbedding p.2) ∧
    (∀ p ∈ gallery, (findBestMatch dist threshold gallery liveEmbedding).2
        ≤ dist liveEmbedding p.2) ∧
    ((findBestMatch dist threshold gallery liveEmbedding).2 ≤ threshold →
      ∃ p ∈ gallery, (findBestMatch dist threshold gallery liveEmbedding).1 = p.1 ∧
        dist liveEmbedding p.2
          = (findBestMatch dist threshold gallery liveEmbedding).2) ∧
    (threshold < (findBestMatch dist threshold gallery liveEmbedding).2 →
      (findBestMatch dist threshold gallery liveEmbedding).1 = "unknown") := by
  obtain ⟨g, gs, rfl⟩ : ∃ g gs, gallery = g :: gs := by
    cases gallery with
    | nil => exact absurd rfl hg
    | cons g gs => exact ⟨g, gs, rfl⟩
  have hunfold : findBestMatch dist threshold (g :: gs) liveEmbedding
      = (if (gs.foldl
            (fun b p =>
              if dist liveEmbedding p.2 < b.2 then (p.1, dist liveEmbedding p.2) else b)
            (g.1, dist liveEmbedding g.2)).2 ≤ threshold
         then gs.foldl
            (fun b p =>
              if dist liveEmbedding p.2 < b.2 then (p.1, dist liveEmbedding p.2) else b)
            (g.1, dist liveEmbedding g.2)
         else ("unknown", (gs.foldl
            (fun b p =>
              if dist liveEmbedding p.2 < b.2 then (p.1, dist liveEmbedding p.2) else b)
            (g.1, dist liveEmbedding g.2)).2)) := rfl
  rw [hunfold]
  set B := gs.foldl
      (fun b p =>
        if dist liveEmbedding p.2 < b.2 then (p.1, dist liveEmbedding p.2) else b)
      (g.1, dist liveEmbedding g.2) with hB
  have hBmem : ∃ p ∈ g :: gs, B = (p.1, dist liveEmbedding p.2) := by
    have h := bestFold_mem dist liveEmbedding gs (g.1, dist liveEmbedding g.2)
    rw [← hB] at h
    rcases h with hm | ⟨p0, hp0, hm⟩
    · exact ⟨g, List.mem_cons_self g gs, hm⟩
    · exact ⟨p0, List.mem_cons_of_mem g hp0, hm⟩
  have hBmin : ∀ p ∈ g :: gs, B.2 ≤ dist liveEmbedding p.2 := by
    intro p hp
    rcases List.mem_cons.mp hp with h | h
    · subst h
      have h2 := bestFold_le_init dist liveEmbedding gs (p.1, dist liveEmbedding p.2)
      rw [← hB] at h2
      exact h2
    · have h2 := bestFold_min dist liveEmbedding gs (g.1, dist liveEmbedding g.2) p h
      rw [← hB] at h2
      exact h2
  obtain ⟨q, hq, hBq⟩ := hBmem
  by_cases hth : B.2 ≤ threshold
  · rw [if_pos hth]
    refine ⟨⟨q, hq, by rw [hBq]⟩, hBmin, fun _ => ⟨q, hq, by rw [hBq], by rw [hBq]⟩,
      fun hlt => absurd hth (not_le_of_lt hlt)⟩
  · rw [if_neg hth]
    exact ⟨⟨q, hq, by rw [hBq]⟩, hBmin, fun hle => absurd hle hth, fun _ => rfl⟩

/-- Witness for C2: a one-entry gallery whose distance to the live embedding is
exactly the threshold; the matcher accepts at the boundary. -/
theorem findBestMatch_matches_spec_witness :
    ∃ p ∈ [("alice", (0 : ℚ))],
      (findBestMatch (fun _ _ => (1 : ℚ)) 1 [("alice", (0 : ℚ))] 0).1 = p.1 ∧
      (fun _ _ => (1 : ℚ)) (0 : ℚ) p.2
        = (findBestMatch (fun _ _ => (1 : ℚ)) 1 [("alice", (0 : ℚ))] 0).2 :=
  (findBestMatch_matches_spec (fun _ _ => (1 : ℚ)) 1 [("alice", (0 : ℚ))] 0
      (by simp)).2.2.1 (by norm_num [findBestMatch])

/-- C5 counterexample: roster Alice and Bob, Alice present. The first close
inserts an absent row for Bob; re-running the close (with recognizedStudents
refreshed by fetchAttendanceRecords from the database the first close left)
inserts a second absent row for Bob, so the attendance records change and Bob
ends with two absent rows, contradicting the claimed no-op. -/
theorem closeSession_rerun_not_noop :
    (let r1 := markAbsentStudents [⟨"a", "Alice"⟩, ⟨"b", "Bob"⟩] ["a"] "CS101" 0
        [⟨"a", "CS101", "present", 0⟩]
     let r2 := markAbsentStudents [⟨"a", "Alice"⟩, ⟨"b", "Bob"⟩]
        (recognizedOf r1.db "CS101" 0) "CS101" 0 r1.db
     r2.db ≠ r1.db ∧
       r2.db.countP (fun r => r.student_id == "b" && r.status == "absent") = 2) := by
  decide

/-- C5 amended: re-running closeSession is not a no-op in general. The refresh
between the closes leaves the recognized set unchanged (the first close only
appends absent rows), so the second close appends the same absent rows again,
one more absent row per roster member without a present record; it is a no-op
exactly when every roster member is recognized. -/
theorem closeSession_rerun_duplicates (students : List Student)
    (recognized : List String) (course : String) (today : Nat)
    (db : List AttendanceRow)
    (hrec : recognized = recognizedOf db course today) :
    recognizedOf (markAbsentStudents students recognized course today db).db
        course today = recognized ∧
    (markAbsentStudents students
        (recognizedOf (markAbsentStudents students recognized course today db).db
          course today)
        course today
        (markAbsentStudents students recognized course today db).db).db
      = (markAbsentStudents students recognized course today db).db
          ++ newAbsentRows students recognized course today ∧
    (newAbsentRows students recognized course today = [] ↔
      ∀ s ∈ students, s.id ∈ recognized) := by
  have h1 : recognizedOf (markAbsentStudents students recognized course today db).db
      course today = recognized := by
    rw [markAbsentStudents_db, recognizedOf_append_absent db _ course today
      (status_newAbsentRows students recognized course today)]
    exact hrec.symm
  refine ⟨h1, ?_, newAbsentRows_eq_nil_iff students recognized course today⟩
  rw [h1, markAbsentStudents_db]

/-- Witness for C5 at the two-student roster with Alice present. -/
theorem closeSession_rerun_duplicates_witness :
    recognizedOf (markAbsentStudents [⟨"a", "Alice"⟩, ⟨"b", "Bob"⟩]
        (recognizedOf [⟨"a", "CS101", "present", 0⟩] "CS101" 0) "CS101" 0
        [⟨"a", "CS101", "present", 0⟩]).db "CS101" 0
      = recognizedOf [⟨"a", "CS101", "present", 0⟩] "CS101" 0 :=
  (closeSession_rerun_duplicates [⟨"a", "Alice"⟩, ⟨"b", "Bob"⟩]
    (recognizedOf [⟨"a", "CS101", "present", 0⟩] "CS101" 0) "CS101" 0
    [⟨"a", "CS101", "present", 0⟩] rfl).1

/-- C6 counterexample: the claim that no two sampling ticks are ever in flight
concurrently is false of the embedded loop semantics: the interval callback
has no guard on previous in-flight processing, so the valid trace consisting
of two timer fires with a ready video and no completion in between leaves two
callback invocations in flight. -/
theorem overlapping_ticks_possible :
    ¬ ∀ events : List TickEvent,
        validTrace events = true → inFlightAfter events ≤ 1 := by
  intro h
  exact absurd (h [TickEvent.fire true, TickEvent.fire true] (by decide))
    (by decide)

/-- C6 amended: a tick is skipped only when the video reports no ready frame;
a timer fire with a ready video always begins processing, regardless of how
many earlier invocations are still in flight, so any valid trace can be
extended by a fire that increments the in-flight count. -/
theorem interval_fire_never_skipped (events : List TickEvent)
    (h : validTrace events = true) :
    validTrace (events ++ [TickEvent.fire true]) = true ∧
    inFlightAfter (events ++ [TickEvent.fire true]) = inFlightAfter events + 1 := by
  constructor
  · rw [validTrace, validFrom_append_fire]
    exact h
  · rw [inFlightAfter, List.foldl_append]
    rfl

/-- Witness for C6 at the empty trace. -/
theorem interval_fire_never_skipped_witness :
    validTrace ([] ++ [TickEvent.fire true]) = true ∧
    inFlightAfter ([] ++ [TickEvent.fire true]) = inFlightAfter [] + 1 :=
  interval_fire_never_skipped [] (by decide)

/-- C7 counterexample: a roster of three where the photo of the second member
yields no face produces a gallery of size two and recognition starts, but the
error surfaced to the caller is none: the exclusion is recorded only in a
console warning (line 214), so no partial-failure or exclusion list reaches
the operator, contradicting the surfacing part of the claim. -/
theorem partial_gallery_not_surfaced :
    (let photo := fun s : Student =>
      if s.id == "s2" then PhotoResult.noFace else PhotoResult.ok [1]
     let r := startFaceRecognition photo [⟨"s1", "A"⟩, ⟨"s2", "B"⟩, ⟨"s3", "C"⟩]
       ⟨true, false, none, false, []⟩
     r.gallery.length = 2 ∧ r.error = none ∧ r.intervalSet = true) := by
  decide

/-- C7 amended: building the gallery excludes each member whose photo fails
(no face or load failure) without aborting the build: the gallery length is
the number of successful photos, a failing member never appears in it, and as
long as one member succeeds recognition starts with no surfaced message; an
error is surfaced only when every member fails, and it is a generic message,
not an exclusion list. -/
theorem buildGallery_partial_failure (photo : Student → PhotoResult)
    (students : List Student) (st : CaptureUIState)
    (hnd : (students.map Student.id).Nodup)
    (hcam : st.isWebcamActive = true) (hne : students ≠ []) :
    (buildLabeledDescriptors photo students).length
        = students.countP (fun s => (photo s).isOk) ∧
    (∀ s ∈ students, (photo s).isOk = false →
      s.id ∉ (buildLabeledDescriptors photo students).map Prod.fst) ∧
    ((∃ s ∈ students, (photo s).isOk = true) →
      (startFaceRecognition photo students st).gallery
          = buildLabeledDescriptors photo students ∧
      (startFaceRecognition photo students st).error = none ∧
      (startFaceRecognition photo students st).intervalSet = true) ∧
    ((∀ s ∈ students, (photo s).isOk = false) →
      (startFaceRecognition photo students st).error
          = some "Could not create face descriptors from student photos. Please check the photos." ∧
      (startFaceRecognition photo students st).isCapturing = false) := by
  have hguard : (!st.isWebcamActive || students.isEmpty) = false := by
    rw [hcam]
    cases students with
    | nil => exact absurd rfl hne
    | cons a l => rfl
  refine ⟨length_buildLabeledDescriptors photo students, ?_, ?_, ?_⟩
  · intro s hs hfail hmem
    rw [List.mem_map] at hmem
    obtain ⟨p, hp, hfst⟩ := hmem
    rw [mem_buildLabeledDescriptors] at hp
    obtain ⟨t, ht, hok, hid⟩ := hp
    have hts : t = s := List.inj_on_of_nodup_map hnd ht hs (by rw [← hid, hfst])
    rw [hts] at hok
    rw [hok] at hfail
    exact absurd hfail (by simp [PhotoResult.isOk])
  · intro hex
    have hnotempty : (buildLabeledDescriptors photo students).isEmpty = false := by
      rcases Bool.eq_false_or_eq_true
          (buildLabeledDescriptors photo students).isEmpty with h | h
      · obtain ⟨s, hs, hok⟩ := hex
        have hf := (buildLabeledDescriptors_isEmpty_iff photo students).mp h s hs
        rw [hok] at hf
        exact absurd hf (by decide)
      · exact h
    refine ⟨?_, ?_, ?_⟩ <;> simp [startFaceRecognition, hguard, hnotempty]
  · intro hall
    have hempty : (buildLabeledDescriptors photo students).isEmpty = true :=
      (buildLabeledDescriptors_isEmpty_iff photo students).mpr hall
    refine ⟨?_, ?_⟩ <;> simp [startFaceRecognition, hguard, hempty]

/-- Witness for C7 at the roster of three with the second photo failing. -/
theorem buildGallery_partial_failure_witness :
    (buildLabeledDescriptors
        (fun s => if s.id == "s2" then PhotoResult.noFace else PhotoResult.ok [1])
        [⟨"s1", "A"⟩, ⟨"s2", "B"⟩, ⟨"s3", "C"⟩]).length
      = ([⟨"s1", "A"⟩, ⟨"s2", "B"⟩, ⟨"s3", "C"⟩] : List Student).countP
          (fun s =>
            ((fun s : Student =>
              if s.id == "s2" then PhotoResult.noFace else PhotoResult.ok [1]) s).isOk) :=
  (buildGallery_partial_failure
    (fun s => if s.id == "s2" then PhotoResult.noFace else PhotoResult.ok [1])
    [⟨"s1", "A"⟩, ⟨"s2", "B"⟩, ⟨"s3", "C"⟩] ⟨true, false, none, false, []⟩
    (by decide) rfl (by decide)).1

/-- C8: the claim states that when descriptor extraction fails after a
successful photo upload, the photo store delete is invoked with the stored
reference. Evaluating the embedded code at the failing input shows the claim
is half right and the code is wrong: no student row is created, but the
uploaded photo is still in storage because the catch block reads the name
filePath, declared inside the try block and so out of scope in the catch, and
the run ends in a thrown ReferenceError instead of performing the removal. -/
theorem enrollment_rollback_never_runs :
    (let r := handleSubmit ⟨"photo.jpg", true, none, true⟩ "Alice" "S1" "CS101" [] []
     r.storage = ["students/photo.jpg"] ∧ r.studentsDb = [] ∧
       r.outcome = JsOutcome.thrownReferenceError "filePath") := by
  decide

/-- C9 counterexample: with the webcam active and an empty roster (hence a
necessarily empty gallery), and likewise with an inactive webcam, the call to
startFaceRecognition returns silently: the state is unchanged and in
particular no error is surfaced, contradicting the claim that an empty gallery
or unavailable camera surfaces an EmptyGallery or CameraUnavailable error at
start. -/
theorem start_silent_when_blocked :
    startFaceRecognition (fun _ => PhotoResult.noFace) []
        ⟨true, false, none, false, []⟩ = ⟨true, false, none, false, []⟩ ∧
    (startFaceRecognition (fun _ => PhotoResult.noFace) []
        ⟨true, false, none, false, []⟩).error = none ∧
    startFaceRecognition (fun _ => PhotoResult.ok [1]) [⟨"s1", "A"⟩]
        ⟨false, false, none, false, []⟩ = ⟨false, false, none, false, []⟩ := by
  decide

/-- C9 amended: camera failure is surfaced by startWebcam, which leaves the
webcam inactive; startFaceRecognition returns silently, with no surfaced
error and no transition, when the webcam is inactive or the roster is empty;
and when every roster photo fails the gallery is empty, an error is surfaced,
and capturing is reverted with the interval not installed. In every failure
case the loop does not end up running. -/
theorem start_failure_semantics (camera : Bool) (photo : Student → PhotoResult)
    (students : List Student) (st : CaptureUIState) :
    (camera = false →
      (startWebcam camera st).isWebcamActive = st.isWebcamActive ∧
      (startWebcam camera st).error
        = some "Failed to access webcam. Please check your camera permissions.") ∧
    (st.isWebcamActive = false ∨ students = [] →
      startFaceRecognition photo students st = st) ∧
    (st.isWebcamActive = true → students ≠ [] →
      (∀ s ∈ students, (photo s).isOk = false) →
      (startFaceRecognition photo students st).error
          = some "Could not create face descriptors from student photos. Please check the photos." ∧
      (startFaceRecognition photo students st).isCapturing = false ∧
      (startFaceRecognition photo students st).intervalSet = st.intervalSet) := by
  refine ⟨?_, ?_, ?_⟩
  · intro hcam
    subst hcam
    exact ⟨rfl, rfl⟩
  · intro hor
    rcases hor with hcam | hemp
    · simp [startFaceRecognition, hcam]
    · subst hemp
      simp [startFaceRecognition]
  · intro hcam hne hall
    have hguard : (!st.isWebcamActive || students.isEmpty) = false := by
      rw [hcam]
      cases students with
      | nil => exact absurd rfl hne
      | cons a l => rfl
    have hempty : (buildLabeledDescriptors photo students).isEmpty = true :=
      (buildLabeledDescriptors_isEmpty_iff photo students).mpr hall
    refine ⟨?_, ?_, ?_⟩ <;> simp [startFaceRecognition, hguard, hempty]

/-- Witness for C9: calling startFaceRecognition with the webcam inactive
leaves the state unchanged. -/
theorem start_failure_semantics_witness :
    startFaceRecognition (fun _ => PhotoResult.ok [1]) [⟨"s1", "A"⟩]
        ⟨false, false, none, false, []⟩ = ⟨false, false, none, false, []⟩ :=
  (start_failure_semantics false (fun _ => PhotoResult.ok [1]) [⟨"s1", "A"⟩]
      ⟨false, false, none, false, []⟩).2.1 (Or.inl rfl)

end AutoAttend
